import Mathlib

/-!
Verification of the sequelize cross-dialect SQL query generation layer.

The definitions below are a shallow embedding of the query generators found in
the repository: the Postgres generator (query-generator.d.ts, second section),
the DB2 generator (query-generator.d.ts, third section) and the IBMi generator
(packages/ibmi/src/query-generator.js).  JavaScript option objects are embedded
as structures whose fields are `Option` valued (`none` meaning the key is
absent), plus an `extraKeys` list standing for further keys a caller may pass.
Fallible operations return `Except String String`: the error carries the thrown
message and no SQL text.  Helper functions that live outside the embedded
sources (the option validator, the fragment joiner, value escaping, index name
derivation) are modelled from the specification and are marked as such in their
doc comments.
-/

namespace SequelizeSpec

/-! ## String utilities -/

/-- Whether the first list of characters occurs at the start of the second. -/
def listStartsWith : List Char → List Char → Bool
  | [], _ => true
  | _ :: _, [] => false
  | a :: as, b :: bs => a == b && listStartsWith as bs

/-- Whether the first list of characters occurs anywhere inside the second. -/
def listContainsSub (pat : List Char) : List Char → Bool
  | [] => listStartsWith pat []
  | c :: rest => listStartsWith pat (c :: rest) || listContainsSub pat rest

/-- Embedding of the JavaScript `String.prototype.includes` test. -/
def strContains (s pat : String) : Bool :=
  listContainsSub pat.data s.data

/-- Replace the first occurrence of a pattern, as JavaScript
`String.prototype.replace` does when given a plain string pattern. -/
def listReplaceFirst (pat repl : List Char) : List Char → List Char
  | [] => if listStartsWith pat [] then repl else []
  | c :: rest =>
    if listStartsWith pat (c :: rest) then repl ++ (c :: rest).drop pat.length
    else c :: listReplaceFirst pat repl rest

/-- String version of `listReplaceFirst`. -/
def strReplaceFirst (s pat repl : String) : String :=
  String.mk (listReplaceFirst pat.data repl.data s.data)

/-- Double every occurrence of the given character (used for identifier and
string quoting). -/
def doubleChar (q : Char) : List Char → List Char
  | [] => []
  | c :: rest => if c == q then q :: q :: doubleChar q rest else c :: doubleChar q rest

/-- The single quote character of SQL string literals. -/
def singleQuoteChar : Char := Char.ofNat 39

/-- Insertion of one string into a sorted list, lexicographically.  Together
with `sortStrings` this embeds the JavaScript `Array.prototype.sort()` calls of
the IBMi create-table path. -/
def insertSorted (x : String) : List String → List String
  | [] => [x]
  | y :: ys => if x ≤ y then x :: y :: ys else y :: insertSorted x ys

/-- Sort a list of strings lexicographically (insertion sort). -/
def sortStrings (xs : List String) : List String :=
  xs.foldr insertSorted []

/-- Hexadecimal digit for a value below 16. -/
def hexDigit (n : Nat) : Char :=
  if n < 10 then Char.ofNat (48 + n) else Char.ofNat (87 + n)

/-- Two-digit lowercase hexadecimal rendering of one byte. -/
def byteToHex (b : Nat) : String :=
  String.mk [hexDigit (b / 16 % 16), hexDigit (b % 16)]

/-- Lowercase hexadecimal rendering of a byte list, as produced by the
JavaScript `Buffer.prototype.toString` with argument hex. -/
def bytesToHex (bs : List Nat) : String :=
  String.join (bs.map byteToHex)

/-- Lowercase a string characterwise, as the JavaScript toLowerCase call does
for ASCII identifiers. -/
def strToLower (s : String) : String :=
  String.mk (s.data.map Char.toLower)

/-- Whether a result is an error.  An error carries only the thrown message:
no SQL text is ever returned alongside a failure. -/
def isError {α : Type} : Except String α → Bool
  | .error _ => true
  | .ok _ => false

/-! ## Values and escaping -/

/-- Semantic values of an insert payload.  `undef` is the JavaScript
`undefined`, distinct from the SQL `nullV`. -/
inductive SqlValue
  | nullV
  | undef
  | str (s : String)
  | int (n : Int)
  | bool (b : Bool)
deriving DecidableEq, Repr

/-- Modelled from the spec, section 4.1 (the escaper is not under src/):
strings are quoted and internal quotes doubled, numbers render unquoted,
booleans render as truth literals, null renders as the NULL keyword. -/
def escapeValue : SqlValue → String
  | .nullV => "NULL"
  | .undef => "undefined"
  | .str s => String.mk (singleQuoteChar :: (doubleChar singleQuoteChar s.data ++ [singleQuoteChar]))
  | .int n => toString n
  | .bool b => if b then "true" else "false"

/-- Escape a plain string value. -/
def escapeString (s : String) : String :=
  escapeValue (.str s)

/-- Modelled from the spec, section 4.1: wrap an identifier in the double
quote character of these dialects, doubling any embedded quote. -/
def quoteIdentifier (s : String) : String :=
  String.mk ('"' :: (doubleChar '"' s.data ++ ['"']))

/-- Join strings with single spaces. -/
def joinWithSpace : List String → String
  | [] => ""
  | [a] => a
  | a :: rest => a ++ " " ++ joinWithSpace rest

/-- Modelled from the spec, section 4.2 (utils/join-sql-fragments is not under
src/): drop empty fragments and join the survivors with single spaces. -/
def joinSQLFragments (frags : List String) : String :=
  joinWithSpace (frags.filter fun f => f != "")

/-! ## Table descriptors -/

/-- A table descriptor: a table name and an optional schema. -/
structure TableDescriptor where
  tableName : String
  schema : Option String := none
deriving DecidableEq, Repr

/-- Modelled from the spec, section 3: normalization fills in the default
schema of the dialect when the descriptor carries none. -/
def extractTableDetails (defaultSchema : String) (t : TableDescriptor) : TableDescriptor :=
  { tableName := t.tableName, schema := some (t.schema.getD defaultSchema) }

/-- Modelled from the spec, section 4.1: render schema.table with each segment
independently quoted, omitting the schema segment when the table is
unscoped. -/
def quoteTable (t : TableDescriptor) : String :=
  match t.schema with
  | none => quoteIdentifier t.tableName
  | some s => quoteIdentifier s ++ "." ++ quoteIdentifier t.tableName

/-! ## Option validation -/

/-- The keys of an options object that are outside the supported set. -/
def invalidOptionKeys (supported keys : List String) : List String :=
  keys.filter fun k => decide (k ∉ supported)

/-- Modelled from the spec, section 4.3 (utils/check.js is not under src/):
fail with a ConfigurationError naming the operation, the dialect and the
offending keys whenever the options object holds a key outside the supported
set; succeed otherwise. -/
def rejectInvalidOptions (operationName dialectName : String)
    (supported keys : List String) : Except String Unit :=
  if invalidOptionKeys supported keys = [] then .ok ()
  else .error ("ConfigurationError: the following options are not supported by "
    ++ operationName ++ " in " ++ dialectName ++ ": "
    ++ String.intercalate ", " (invalidOptionKeys supported keys))

/-! ## Postgres generator: database and schema listing

Embedded from PostgresQueryGeneratorTypeScript in query-generator.d.ts.  The
technical database and schema name lists live in the per-dialect internals
object (not under src/); they are passed as parameters. -/

/-- Options of listDatabasesQuery. -/
structure ListDatabasesOptions where
  skip : Option (List String) := none
deriving DecidableEq, Repr

/-- The databasesToSkip variable of pgListDatabasesQuery: the technical
database names merged with a caller supplied skip list when one is present. -/
def pgDatabasesToSkip (technicalDatabaseNames : List String)
    (options : Option ListDatabasesOptions) : List String :=
  match options with
  | some o =>
    match o.skip with
    | some s => technicalDatabaseNames ++ s
    | none => technicalDatabaseNames
  | none => technicalDatabaseNames

/-- Embedding of PostgresQueryGeneratorTypeScript.listDatabasesQuery. -/
def pgListDatabasesQuery (technicalDatabaseNames : List String)
    (options : Option ListDatabasesOptions) : String :=
  joinSQLFragments [
    "SELECT datname AS \"name\" FROM pg_database",
    "WHERE datistemplate = false AND datname NOT IN ("
      ++ String.intercalate ", " ((pgDatabasesToSkip technicalDatabaseNames options).map escapeString)
      ++ ")"
  ]

/-- Options of listSchemasQuery. -/
structure ListSchemasOptions where
  skip : Option (List String) := none
deriving DecidableEq, Repr

/-- The schemasToSkip variable of pgListSchemasQuery: public plus the
technical schema names, extended by a caller supplied skip list. -/
def pgSchemasToSkip (technicalSchemaNames : List String)
    (options : Option ListSchemasOptions) : List String :=
  let base := "public" :: technicalSchemaNames
  match options with
  | some o =>
    match o.skip with
    | some s => base ++ s
    | none => base
  | none => base

/-- Embedding of PostgresQueryGeneratorTypeScript.listSchemasQuery. -/
def pgListSchemasQuery (technicalSchemaNames : List String)
    (options : Option ListSchemasOptions) : String :=
  joinSQLFragments [
    "SELECT schema_name AS \"schema\" FROM information_schema.schemata",
    "WHERE schema_name !~ E\x27^pg_\x27 AND schema_name NOT IN ("
      ++ String.intercalate ", " ((pgSchemasToSkip technicalSchemaNames options).map escapeString)
      ++ ")"
  ]

/-- Options of listTablesQuery. -/
structure ListTablesOptions where
  schema : Option String := none
deriving DecidableEq, Repr

/-- The exclusion branch of pgListTablesQuery, taken when no specific schema
filter was supplied. -/
def pgListTablesExclusionClause (technicalSchemaNames : List String) : String :=
  "AND table_schema !~ E\x27^pg_\x27 AND table_schema NOT IN ("
    ++ String.intercalate ", " (technicalSchemaNames.map escapeString) ++ ")"

/-- The schema clause of pgListTablesQuery: an equality filter when a truthy
schema option is present, the technical exclusion predicate otherwise. -/
def pgListTablesSchemaClause (technicalSchemaNames : List String)
    (options : Option ListTablesOptions) : String :=
  match options with
  | some o =>
    match o.schema with
    | some s =>
      if s != "" then "AND table_schema = " ++ escapeString s
      else pgListTablesExclusionClause technicalSchemaNames
    | none => pgListTablesExclusionClause technicalSchemaNames
  | none => pgListTablesExclusionClause technicalSchemaNames

/-- Embedding of PostgresQueryGeneratorTypeScript.listTablesQuery. -/
def pgListTablesQuery (technicalSchemaNames : List String)
    (options : Option ListTablesOptions) : String :=
  joinSQLFragments [
    "SELECT table_name AS \"tableName\", table_schema AS \"schema\"",
    "FROM information_schema.tables WHERE table_type = \x27BASE TABLE\x27 AND table_name != \x27spatial_ref_sys\x27",
    pgListTablesSchemaClause technicalSchemaNames options,
    "ORDER BY table_schema, table_name"
  ]

/-! ## Postgres generator: createDatabaseQuery -/

/-- Options of createDatabaseQuery.  Named fields are the documented option
keys; `extraKeys` stands for any further keys present on the object. -/
structure CreateDatabaseOptions where
  collate : Option String := none
  ctype : Option String := none
  encoding : Option String := none
  template : Option String := none
  extraKeys : List String := []
deriving DecidableEq, Repr

/-- The list of keys present on a createDatabaseQuery options object. -/
def createDatabaseOptionKeys (o : CreateDatabaseOptions) : List String :=
  (if o.collate.isSome then ["collate"] else [])
  ++ (if o.ctype.isSome then ["ctype"] else [])
  ++ (if o.encoding.isSome then ["encoding"] else [])
  ++ (if o.template.isSome then ["template"] else [])
  ++ o.extraKeys

/-- The supported option set of createDatabaseQuery on Postgres. -/
def CREATE_DATABASE_QUERY_SUPPORTED_OPTIONS : List String :=
  ["collate", "ctype", "encoding", "template"]

/-- One optional settings clause of createDatabaseQuery: emitted only when the
value is present and truthy. -/
def createDatabaseClause (keyword : String) (v : Option String) : String :=
  match v with
  | some s => if s != "" then keyword ++ " = " ++ escapeString s else ""
  | none => ""

/-- The SQL text assembled by createDatabaseQuery once validation passed. -/
def pgCreateDatabaseSql (database : String) (options : Option CreateDatabaseOptions) : String :=
  joinSQLFragments [
    "CREATE DATABASE " ++ quoteIdentifier database,
    createDatabaseClause "ENCODING" (options.bind (·.encoding)),
    createDatabaseClause "LC_COLLATE" (options.bind (·.collate)),
    createDatabaseClause "LC_CTYPE" (options.bind (·.ctype)),
    createDatabaseClause "TEMPLATE" (options.bind (·.template))
  ]

/-- Embedding of PostgresQueryGeneratorTypeScript.createDatabaseQuery:
options are validated first, then the SQL text is assembled. -/
def pgCreateDatabaseQuery (database : String)
    (options : Option CreateDatabaseOptions) : Except String String :=
  match options with
  | some o =>
    match rejectInvalidOptions "createDatabaseQuery" "postgres"
        CREATE_DATABASE_QUERY_SUPPORTED_OPTIONS (createDatabaseOptionKeys o) with
    | .error e => .error e
    | .ok _ => .ok (pgCreateDatabaseSql database options)
  | none => .ok (pgCreateDatabaseSql database options)

/-! ## Rename table -/

/-- Options of renameTableQuery. -/
structure RenameTableOptions where
  changeSchema : Option Bool := none
  extraKeys : List String := []
deriving DecidableEq, Repr

/-- The list of keys present on a renameTableQuery options object. -/
def renameTableOptionKeys (o : RenameTableOptions) : List String :=
  (if o.changeSchema.isSome then ["changeSchema"] else []) ++ o.extraKeys

/-- Truthiness of the changeSchema flag on an optional options object. -/
def changeSchemaTruthy (options : Option RenameTableOptions) : Bool :=
  match options with
  | some o => o.changeSchema == some true
  | none => false

/-- Embedding of PostgresQueryGeneratorTypeScript.renameTableQuery.
A cross-schema move demands the changeSchema flag, forbids renaming at the
same time, and produces an ALTER TABLE ... SET SCHEMA statement. -/
def pgRenameTableQuery (beforeTableName afterTableName : TableDescriptor)
    (options : Option RenameTableOptions) : Except String String :=
  if (extractTableDetails "public" beforeTableName).schema
      ≠ (extractTableDetails "public" afterTableName).schema then
    if changeSchemaTruthy options = false then
      .error "To move a table between schemas, you must set `options.changeSchema` to true."
    else if (extractTableDetails "public" beforeTableName).tableName
        ≠ (extractTableDetails "public" afterTableName).tableName then
      .error "Renaming a table and moving it to a different schema is not supported by postgres."
    else
      .ok ("ALTER TABLE " ++ quoteTable beforeTableName ++ " SET SCHEMA "
        ++ quoteIdentifier ((extractTableDetails "public" afterTableName).schema.getD ""))
  else
    .ok ("ALTER TABLE " ++ quoteTable beforeTableName ++ " RENAME TO "
      ++ quoteIdentifier (extractTableDetails "public" afterTableName).tableName)

/-- The part of the DB2 renameTableQuery that runs after option validation:
any cross-schema move is rejected unconditionally. -/
def db2RenameTableAfterValidation (defaultSchema : String)
    (beforeTableName afterTableName : TableDescriptor) : Except String String :=
  if (extractTableDetails defaultSchema beforeTableName).schema
      ≠ (extractTableDetails defaultSchema afterTableName).schema then
    .error "Moving tables between schemas is not supported by db2 dialect."
  else
    .ok ("RENAME TABLE " ++ quoteTable beforeTableName ++ " TO "
      ++ quoteIdentifier (extractTableDetails defaultSchema afterTableName).tableName)

/-- Embedding of Db2QueryGeneratorTypeScript.renameTableQuery: options are
validated against the empty supported set, then any cross-schema move is
rejected unconditionally. -/
def db2RenameTableQuery (defaultSchema : String)
    (beforeTableName afterTableName : TableDescriptor)
    (options : Option RenameTableOptions) : Except String String :=
  match options with
  | some o =>
    match rejectInvalidOptions "renameTableQuery" "db2" [] (renameTableOptionKeys o) with
    | .error e => .error e
    | .ok _ => db2RenameTableAfterValidation defaultSchema beforeTableName afterTableName
  | none => db2RenameTableAfterValidation defaultSchema beforeTableName afterTableName

/-! ## Index naming, addIndex and removeIndex -/

/-- Modelled from the spec, sections 3 and 4.4 (utils/string.js is not under
src/): the deterministic index name derived from the table name and the field
list. -/
def generateIndexName (table : TableDescriptor) (fields : List String) : String :=
  table.tableName ++ "_" ++ String.intercalate "_" fields

/-- Modelled from the spec, section 4.4 (the abstract addIndexQuery is not
under src/): the name an add-index call uses, the caller supplied one when
present and the derived one otherwise. -/
def addIndexDerivedName (table : TableDescriptor) (name : Option String)
    (fields : List String) : String :=
  match name with
  | some n => n
  | none => generateIndexName (extractTableDetails "public" table) fields

/-- Options of removeIndexQuery. -/
structure RemoveIndexOptions where
  cascade : Bool := false
  concurrently : Bool := false
  ifExists : Bool := false
deriving DecidableEq, Repr

/-- The index name resolution step of removeIndexQuery: a field list is turned
into the derived name, a string is used as given. -/
def removeIndexResolvedName (tableName : TableDescriptor)
    (indexNameOrAttributes : String ⊕ List String) : String :=
  match indexNameOrAttributes with
  | .inl name => name
  | .inr attrs => generateIndexName (extractTableDetails "public" tableName) attrs

/-- Embedding of PostgresQueryGeneratorTypeScript.removeIndexQuery. -/
def pgRemoveIndexQuery (tableName : TableDescriptor)
    (indexNameOrAttributes : String ⊕ List String)
    (options : Option RemoveIndexOptions) : Except String String :=
  let cascade := (options.map (·.cascade)).getD false
  let concurrently := (options.map (·.concurrently)).getD false
  let ifExists := (options.map (·.ifExists)).getD false
  if cascade && concurrently then
    .error "Cannot specify both concurrently and cascade options in removeIndexQuery for postgres dialect"
  else
    let table := extractTableDetails "public" tableName
    let indexName := removeIndexResolvedName tableName indexNameOrAttributes
    .ok (joinSQLFragments [
      "DROP INDEX",
      if concurrently then "CONCURRENTLY" else "",
      if ifExists then "IF EXISTS" else "",
      quoteIdentifier (table.schema.getD "") ++ "." ++ quoteIdentifier indexName,
      if cascade then "CASCADE" else ""
    ])

/-- Options of addIndexQuery as far as the DB2 override inspects them. -/
structure Db2AddIndexOptions where
  includeColumns : Option (List String) := none
  unique : Bool := false
  indexType : Option String := none
deriving DecidableEq, Repr

/-- Outcome of the DB2 addIndexQuery override: either the thrown error or
delegation to the SQL assembly of the superclass. -/
inductive Db2AddIndexOutcome
  | thrown (msg : String)
  | delegated
deriving DecidableEq, Repr

/-- Embedding of Db2QueryGeneratorTypeScript.addIndexQuery: an include key on
a non-unique index (whose type is not the word unique in any letter case) is
rejected before any delegation to the superclass. -/
def db2AddIndexQuery (options : Db2AddIndexOptions) : Db2AddIndexOutcome :=
  if options.includeColumns.isSome && !options.unique
      && !(options.indexType.map strToLower == some "unique") then
    .thrown "DB2 does not support non-unique indexes with INCLUDE syntax."
  else
    .delegated

/-! ## DB2: dropSchemaQuery, listSchemasQuery, generateTransactionId -/

/-- Options of dropSchemaQuery. -/
structure DropSchemaOptions where
  cascade : Option Bool := none
  extraKeys : List String := []
deriving DecidableEq, Repr

/-- The list of keys present on a dropSchemaQuery options object. -/
def dropSchemaOptionKeys (o : DropSchemaOptions) : List String :=
  (if o.cascade.isSome then ["cascade"] else []) ++ o.extraKeys

/-- Embedding of Db2QueryGeneratorTypeScript.dropSchemaQuery: options are
validated against the empty supported set, then the statement is emitted. -/
def db2DropSchemaQuery (schemaName : String)
    (options : Option DropSchemaOptions) : Except String String :=
  match options with
  | some o =>
    match rejectInvalidOptions "dropSchemaQuery" "db2" [] (dropSchemaOptionKeys o) with
    | .error e => .error e
    | .ok _ => .ok ("DROP SCHEMA " ++ quoteIdentifier schemaName ++ " RESTRICT")
  | none => .ok ("DROP SCHEMA " ++ quoteIdentifier schemaName ++ " RESTRICT")

/-- The schemasToSkip variable of db2ListSchemasQuery: the technical schema
names merged with a caller supplied skip list when one is present. -/
def db2SchemasToSkip (technicalSchemaNames : List String)
    (options : Option ListSchemasOptions) : List String :=
  match options with
  | some o =>
    match o.skip with
    | some s => technicalSchemaNames ++ s
    | none => technicalSchemaNames
  | none => technicalSchemaNames

/-- Embedding of Db2QueryGeneratorTypeScript.listSchemasQuery. -/
def db2ListSchemasQuery (technicalSchemaNames : List String)
    (options : Option ListSchemasOptions) : String :=
  joinSQLFragments [
    "SELECT SCHEMANAME AS \"schema\" FROM SYSCAT.SCHEMATA",
    "WHERE SCHEMANAME NOT LIKE \x27SYS%\x27 AND SCHEMANAME NOT IN ("
      ++ String.intercalate ", " ((db2SchemasToSkip technicalSchemaNames options).map escapeString)
      ++ ")"
  ]

/-- Embedding of Db2QueryGeneratorTypeScript.generateTransactionId: the hex
rendering of ten freshly drawn random bytes.  The random draw is made explicit
as the argument. -/
def db2GenerateTransactionId (randomBytesDrawn : List Nat) : String :=
  bytesToHex randomBytesDrawn

/-! ## Postgres insertQuery

Embedded from PostgresQueryGeneratorTypeScript.insertQuery.  The bind-parameter
collection machinery lives in the internals object (not under src/); the model
renders values inline per spec section 4.1.  The upsert fragment produced by
generateUpdateOnDuplicateKeysFragment (internals, not under src/) is passed as
the parameter `conflictFragmentSql`, and the eight random bytes drawn for the
exception-mode delimiter are passed as the hex string `randomHex`. -/

/-- The returning option: a boolean or an explicit column list. -/
inductive ReturningOption
  | rbool (b : Bool)
  | rcols (cols : List String)
deriving DecidableEq, Repr

/-- Options of insertQuery.  Named fields are the supported option keys;
`extraKeys` stands for any further keys present on the object. -/
structure InsertOptions where
  conflictWhere : Option String := none
  exception : Option Bool := none
  ignoreDuplicates : Option Bool := none
  returning : Option ReturningOption := none
  updateOnDuplicate : Option (List String) := none
  extraKeys : List String := []
deriving DecidableEq, Repr

/-- The list of keys present on an insertQuery options object. -/
def insertOptionKeys (o : InsertOptions) : List String :=
  (if o.conflictWhere.isSome then ["conflictWhere"] else [])
  ++ (if o.exception.isSome then ["exception"] else [])
  ++ (if o.ignoreDuplicates.isSome then ["ignoreDuplicates"] else [])
  ++ (if o.returning.isSome then ["returning"] else [])
  ++ (if o.updateOnDuplicate.isSome then ["updateOnDuplicate"] else [])
  ++ o.extraKeys

/-- The supported option set of insertQuery on Postgres. -/
def INSERT_QUERY_SUPPORTED_OPTIONS : List String :=
  ["conflictWhere", "exception", "ignoreDuplicates", "returning", "updateOnDuplicate"]

/-- Truthiness of the ignoreDuplicates flag. -/
def ignoreDuplicatesTruthy (options : Option InsertOptions) : Bool :=
  (options.map fun o => o.ignoreDuplicates == some true).getD false

/-- Truthiness of the updateOnDuplicate value (a present array is truthy). -/
def updateOnDuplicateTruthy (options : Option InsertOptions) : Bool :=
  (options.map fun o => o.updateOnDuplicate.isSome).getD false

/-- Truthiness of the exception flag. -/
def exceptionTruthy (options : Option InsertOptions) : Bool :=
  (options.map fun o => o.exception == some true).getD false

/-- Truthiness of the returning value (a present array is truthy, a present
false boolean is not). -/
def returningTruthy (options : Option InsertOptions) : Bool :=
  match options with
  | some o =>
    match o.returning with
    | some (.rbool b) => b
    | some (.rcols _) => true
    | none => false
  | none => false

/-- The validation phase of insertQuery: option keys are checked, then the
mutual exclusion of ignoreDuplicates and updateOnDuplicate. -/
def insertValidate (options : Option InsertOptions) : Except String Unit :=
  match options with
  | none => .ok ()
  | some o =>
    match rejectInvalidOptions "insertQuery" "postgres"
        INSERT_QUERY_SUPPORTED_OPTIONS (insertOptionKeys o) with
    | .error e => .error e
    | .ok _ =>
      if o.ignoreDuplicates == some true && o.updateOnDuplicate.isSome then
        .error "Options ignoreDuplicates and updateOnDuplicate cannot be used together"
      else .ok ()

/-- Column attributes relevant to insertQuery. -/
structure AttributeOptions where
  columnName : Option String := none
  autoIncrement : Bool := false
deriving DecidableEq, Repr

/-- The attributeMap construction of insertQuery: every attribute is keyed by
its columnName when set and by its attribute key otherwise. -/
def buildAttributeMap (attributeHash : List (String × AttributeOptions)) :
    List (String × AttributeOptions) :=
  attributeHash.map fun p => (p.2.columnName.getD p.1, p.2)

/-- Lookup in the attribute map; a later entry for the same column wins, as
with repeated Map.set calls. -/
def lookupAttribute (attributeMap : List (String × AttributeOptions))
    (column : String) : Option AttributeOptions :=
  (attributeMap.reverse.find? fun p => p.1 == column).map (·.2)

/-- Whether the attribute of a column is flagged auto-increment. -/
def isAutoIncrement (attributeMap : List (String × AttributeOptions))
    (column : String) : Bool :=
  ((lookupAttribute attributeMap column).map (·.autoIncrement)).getD false

/-- The valueMap construction loop of insertQuery: a nullish value on an
auto-increment column becomes the DEFAULT keyword, a remaining undefined value
is skipped as absent, everything else is escaped. -/
def buildValueMap (attributeMap : List (String × AttributeOptions)) :
    List (String × SqlValue) → List (String × String)
  | [] => []
  | (column, v) :: rest =>
    if isAutoIncrement attributeMap column && (v == SqlValue.nullV || v == SqlValue.undef) then
      (column, "DEFAULT") :: buildValueMap attributeMap rest
    else if v == SqlValue.undef then
      buildValueMap attributeMap rest
    else
      (column, escapeValue v) :: buildValueMap attributeMap rest

/-- Modelled from the spec, section 4.4 (getReturnFields lives in the
internals object, not under src/): an explicit list is quoted per column,
a boolean request returns all columns, rendered star absent a model. -/
def getReturnFields (options : Option InsertOptions) : List String :=
  match options.bind (·.returning) with
  | some (.rcols cols) => cols.map quoteIdentifier
  | _ => ["*"]

/-- The RETURNING fragment of insertQuery, empty when returning is not
requested. -/
def returningFragment (options : Option InsertOptions) : String :=
  if returningTruthy options then
    joinSQLFragments ["RETURNING", String.intercalate ", " (getReturnFields options)]
  else ""

/-- The SQL text assembled by insertQuery once validation passed. -/
def pgInsertQueryBody (tableName : TableDescriptor) (value : List (String × SqlValue))
    (options : Option InsertOptions) (attributeHash : List (String × AttributeOptions))
    (conflictFragmentSql : String) (randomHex : String) : String :=
  let attributeMap := buildAttributeMap attributeHash
  let valueMap := buildValueMap attributeMap value
  let retFragment := returningFragment options
  if valueMap = [] then
    joinSQLFragments ["INSERT INTO", quoteTable tableName, "DEFAULT VALUES", retFragment]
  else
    let rowFragment := String.intercalate "," (valueMap.map (·.2))
    let columnFragment := String.intercalate "," (valueMap.map fun p => quoteIdentifier p.1)
    let conflictFragment := if updateOnDuplicateTruthy options then conflictFragmentSql else ""
    if exceptionTruthy options then
      joinSQLFragments [
        "CREATE OR REPLACE FUNCTION pg_temp.testfunc(OUT response " ++ quoteTable tableName
          ++ ", OUT sequelize_caught_exception text) RETURNS RECORD AS",
        "$func_" ++ randomHex ++ "$",
        "BEGIN INSERT INTO",
        quoteTable tableName,
        "(" ++ columnFragment ++ ")",
        "VALUES",
        "(" ++ rowFragment ++ ")",
        conflictFragment,
        if ignoreDuplicatesTruthy options then "ON CONFLICT DO NOTHING" else "",
        "RETURNING * INTO response;",
        "EXCEPTION WHEN unique_violation THEN GET STACKED DIAGNOSTICS sequelize_caught_exception = PG_EXCEPTION_DETAIL;",
        "END;",
        "$func_" ++ randomHex ++ "$",
        "LANGUAGE plpgsql;",
        "SELECT (testfunc.response)."
          ++ String.intercalate ", (testfunc.response)." (getReturnFields options)
          ++ ", testfunc.sequelize_caught_exception FROM pg_temp.testfunc();",
        "DROP FUNCTION IF EXISTS pg_temp.testfunc()"
      ]
    else
      joinSQLFragments [
        "INSERT INTO",
        quoteTable tableName,
        "(" ++ columnFragment ++ ")",
        "VALUES",
        "(" ++ rowFragment ++ ")",
        conflictFragment,
        if ignoreDuplicatesTruthy options then "ON CONFLICT DO NOTHING" else "",
        retFragment
      ]

/-- Embedding of PostgresQueryGeneratorTypeScript.insertQuery: validation runs
first and a validation failure yields no SQL at all. -/
def pgInsertQuery (tableName : TableDescriptor) (value : List (String × SqlValue))
    (options : Option InsertOptions) (attributeHash : List (String × AttributeOptions))
    (conflictFragmentSql : String) (randomHex : String) : Except String String :=
  match insertValidate options with
  | .error e => .error e
  | .ok _ => .ok (pgInsertQueryBody tableName value options attributeHash conflictFragmentSql randomHex)

/-- The per-entry rendering decision of the insertQuery value loop, used to
characterize `buildValueMap`.  `none` means the entry is dropped from both the
column list and the value list. -/
def entryRendering (attributeMap : List (String × AttributeOptions))
    (e : String × SqlValue) : Option (String × String) :=
  if isAutoIncrement attributeMap e.1 && (e.2 == SqlValue.nullV || e.2 == SqlValue.undef) then
    some (e.1, "DEFAULT")
  else if e.2 == SqlValue.undef then
    none
  else
    some (e.1, escapeValue e.2)

/-! ## IBMi createTableQuery

Embedded from IBMiQueryGenerator.createTableQuery in
packages/ibmi/src/query-generator.js.  Attributes arrive as a map from column
name to an already rendered data type string; a column is a primary key when
that string contains the words PRIMARY KEY. -/

/-- One unique key specification: `indexName` is the string key of the object
form (`none` for the numeric index of the array form), `fields` the column
list. -/
structure UniqueKeySpec where
  indexName : Option String := none
  fields : List String := []
deriving DecidableEq, Repr

/-- Options of the IBMi createTableQuery. -/
structure CreateTableOptions where
  uniqueKeys : Option (List UniqueKeySpec) := none
  extraKeys : List String := []
deriving DecidableEq, Repr

/-- The list of keys present on a createTableQuery options object. -/
def createTableOptionKeys (o : CreateTableOptions) : List String :=
  (if o.uniqueKeys.isSome then ["uniqueKeys"] else []) ++ o.extraKeys

/-- The supported option set of createTableQuery on IBMi. -/
def CREATE_TABLE_QUERY_SUPPORTED_OPTIONS : List String := ["uniqueKeys"]

/-- The column clause of one attribute: primary-key attributes have the words
PRIMARY KEY stripped from their type string. -/
def ibmiAttrFragment (attr : String × String) : String :=
  if strContains attr.2 "PRIMARY KEY" then
    quoteIdentifier attr.1 ++ " " ++ strReplaceFirst attr.2 "PRIMARY KEY" ""
  else
    quoteIdentifier attr.1 ++ " " ++ attr.2

/-- The primary key columns: the attributes whose type string contains the
words PRIMARY KEY, in declaration order. -/
def ibmiPrimaryKeys (attributes : List (String × String)) : List String :=
  (attributes.filter fun a => strContains a.2 "PRIMARY KEY").map (·.1)

/-- The auto-generated name of an unnamed unique key. -/
def ibmiAutoUniqueName (tableName : String) (fields : List String) : String :=
  "uniq_" ++ tableName ++ "_" ++ String.intercalate "_" fields

/-- The indexwise every comparison of the source: each element of the first
list must equal the element of the second list at the same position (an out of
range position reads as absent and never matches). -/
def everyIndexEq (xs ys : List String) : Bool :=
  (List.range xs.length).all fun i => xs[i]? == ys[i]?

/-- The uniqueIsPrimary test of the source: the sorted unique-key fields have
the length of the primary key list and agree with the sorted primary keys at
every position.  String comparison is the strict equality of the source. -/
def uniqueIsPrimary (sortedColumnFields sortedPrimaryKeys : List String)
    (pkLength : Nat) : Bool :=
  sortedColumnFields.length == pkLength && everyIndexEq sortedColumnFields sortedPrimaryKeys

/-- The clause one unique key contributes to the attributes clause: empty when
the key duplicates the primary key under sorted comparison, a named UNIQUE
constraint otherwise. -/
def ibmiUniqueKeyFragment (tableName : String) (primaryKeys : List String)
    (uk : UniqueKeySpec) : String :=
  if uniqueIsPrimary (sortStrings uk.fields) (sortStrings primaryKeys) primaryKeys.length then ""
  else
    ", CONSTRAINT " ++ quoteIdentifier (uk.indexName.getD (ibmiAutoUniqueName tableName uk.fields))
      ++ " UNIQUE (" ++ String.intercalate ", " (uk.fields.map quoteIdentifier) ++ ")"

/-- The concatenated unique key clauses of a createTableQuery call. -/
def ibmiUniqueKeysClause (tableName : String) (primaryKeys : List String)
    (options : Option CreateTableOptions) : String :=
  match options.bind (·.uniqueKeys) with
  | some uks => String.join (uks.map (ibmiUniqueKeyFragment tableName primaryKeys))
  | none => ""

/-- The SQL text assembled by the IBMi createTableQuery once validation
passed. -/
def ibmiCreateTableSql (tableName : String) (attributes : List (String × String))
    (options : Option CreateTableOptions) : String :=
  let primaryKeys := ibmiPrimaryKeys attributes
  let attributesClause0 := String.intercalate ", " (attributes.map ibmiAttrFragment)
  let pkString := String.intercalate ", " (primaryKeys.map quoteIdentifier)
  let attributesClause1 := attributesClause0 ++ ibmiUniqueKeysClause tableName primaryKeys options
  let attributesClause2 :=
    if pkString.length > 0 then attributesClause1 ++ ", PRIMARY KEY (" ++ pkString ++ ")"
    else attributesClause1
  "BEGIN\n    DECLARE CONTINUE HANDLER FOR SQLSTATE VALUE \x2742710\x27\n      BEGIN END;\n      CREATE TABLE "
    ++ quoteIdentifier tableName ++ " (" ++ attributesClause2 ++ ");\n      END"

/-- Embedding of IBMiQueryGenerator.createTableQuery: options are validated
against the supported set containing only uniqueKeys, then the statement is
assembled. -/
def ibmiCreateTableQuery (tableName : String) (attributes : List (String × String))
    (options : Option CreateTableOptions) : Except String String :=
  match options with
  | some o =>
    match rejectInvalidOptions "createTableQuery" "ibmi"
        CREATE_TABLE_QUERY_SUPPORTED_OPTIONS (createTableOptionKeys o) with
    | .error e => .error e
    | .ok _ => .ok (ibmiCreateTableSql tableName attributes options)
  | none => .ok (ibmiCreateTableSql tableName attributes options)

/-! ## Helper lemmas -/

theorem invalidOptionKeys_eq_nil_iff (supported keys : List String) :
    invalidOptionKeys supported keys = [] ↔ ∀ k ∈ keys, k ∈ supported := by
  unfold invalidOptionKeys
  rw [List.filter_eq_nil_iff]
  simp

theorem rejectInvalidOptions_ok_iff (op d : String) (supported keys : List String) :
    isError (rejectInvalidOptions op d supported keys) = false ↔ ∀ k ∈ keys, k ∈ supported := by
  unfold rejectInvalidOptions
  split
  case isTrue h =>
    simpa [isError] using (invalidOptionKeys_eq_nil_iff supported keys).mp h
  case isFalse h =>
    simp only [isError]
    constructor
    · intro hfalse; exact absurd hfalse (by simp)
    · intro hall; exact absurd ((invalidOptionKeys_eq_nil_iff supported keys).mpr hall) h

theorem rejectInvalidOptions_error_iff (op d : String) (supported keys : List String) :
    isError (rejectInvalidOptions op d supported keys) = true ↔ ∃ k ∈ keys, k ∉ supported := by
  have h := rejectInvalidOptions_ok_iff op d supported keys
  constructor
  · intro he
    by_contra hno
    push_neg at hno
    have := h.mpr hno
    rw [he] at this
    exact absurd this (by simp)
  · intro ⟨k, hk, hns⟩
    cases herr : isError (rejectInvalidOptions op d supported keys)
    · exact absurd (h.mp herr k hk) hns
    · rfl

theorem strAppend_data (s t : String) : (s ++ t).data = s.data ++ t.data := by
  cases s; cases t; rfl

theorem strAppend_empty (s : String) : s ++ "" = s := by
  cases s with
  | mk l => show String.mk (l ++ []) = String.mk l; rw [List.append_nil]

theorem strAppend_assoc (a b c : String) : a ++ b ++ c = a ++ (b ++ c) := by
  cases a; cases b; cases c
  show String.mk (_ ++ _ ++ _) = String.mk (_ ++ (_ ++ _))
  rw [List.append_assoc]

theorem strAppend_left_ne_empty (s t : String) (h : s.data ≠ []) : s ++ t ≠ "" := by
  intro he
  apply h
  have hd := congrArg String.data he
  rw [strAppend_data] at hd
  exact (List.append_eq_nil.mp hd).1

/-! ## Claim theorems -/

/-- Claim C1: option validation is strict.  The validator fails exactly when
the options object holds a key outside the supported set of the operation, and
an operation returns an error (hence no SQL text at all) exactly in that case:
createDatabaseQuery on Postgres succeeds whenever every key is among collate,
ctype, encoding and template and fails whenever some key is not; dropSchemaQuery
and renameTableQuery on DB2 validate against the empty supported set, so any
options object with at least one key fails entirely and a keyless one
passes. -/
theorem c1_option_validation_strict :
    (∀ op d supported keys,
      isError (rejectInvalidOptions op d supported keys) = true ↔ ∃ k ∈ keys, k ∉ supported)
    ∧ (∀ db o, (∀ k ∈ createDatabaseOptionKeys o, k ∈ CREATE_DATABASE_QUERY_SUPPORTED_OPTIONS) →
        isError (pgCreateDatabaseQuery db (some o)) = false)
    ∧ (∀ db o, (∃ k ∈ createDatabaseOptionKeys o, k ∉ CREATE_DATABASE_QUERY_SUPPORTED_OPTIONS) →
        isError (pgCreateDatabaseQuery db (some o)) = true)
    ∧ (∀ s o, dropSchemaOptionKeys o ≠ [] → isError (db2DropSchemaQuery s (some o)) = true)
    ∧ (∀ s o, dropSchemaOptionKeys o = [] → isError (db2DropSchemaQuery s (some o)) = false)
    ∧ (∀ ds b a o, renameTableOptionKeys o ≠ [] →
        isError (db2RenameTableQuery ds b a (some o)) = true) := by
  refine ⟨fun op d supported keys => rejectInvalidOptions_error_iff op d supported keys,
    ?_, ?_, ?_, ?_, ?_⟩
  · intro db o hall
    have hok := (rejectInvalidOptions_ok_iff "createDatabaseQuery" "postgres"
      CREATE_DATABASE_QUERY_SUPPORTED_OPTIONS (createDatabaseOptionKeys o)).mpr hall
    cases hv : rejectInvalidOptions "createDatabaseQuery" "postgres"
        CREATE_DATABASE_QUERY_SUPPORTED_OPTIONS (createDatabaseOptionKeys o) with
    | error e => rw [hv] at hok; simp [isError] at hok
    | ok u => simp [pgCreateDatabaseQuery, hv, isError]
  · intro db o hex
    have herr := (rejectInvalidOptions_error_iff "createDatabaseQuery" "postgres"
      CREATE_DATABASE_QUERY_SUPPORTED_OPTIONS (createDatabaseOptionKeys o)).mpr hex
    cases hv : rejectInvalidOptions "createDatabaseQuery" "postgres"
        CREATE_DATABASE_QUERY_SUPPORTED_OPTIONS (createDatabaseOptionKeys o) with
    | error e => simp [pgCreateDatabaseQuery, hv, isError]
    | ok u => rw [hv] at herr; simp [isError] at herr
  · intro s o hne
    obtain ⟨k, hk⟩ := List.exists_mem_of_ne_nil _ hne
    have herr := (rejectInvalidOptions_error_iff "dropSchemaQuery" "db2" []
      (dropSchemaOptionKeys o)).mpr ⟨k, hk, by simp⟩
    cases hv : rejectInvalidOptions "dropSchemaQuery" "db2" [] (dropSchemaOptionKeys o) with
    | error e => simp [db2DropSchemaQuery, hv, isError]
    | ok u => rw [hv] at herr; simp [isError] at herr
  · intro s o hnil
    have hok := (rejectInvalidOptions_ok_iff "dropSchemaQuery" "db2" []
      (dropSchemaOptionKeys o)).mpr (by rw [hnil]; intro k hk; cases hk)
    cases hv : rejectInvalidOptions "dropSchemaQuery" "db2" [] (dropSchemaOptionKeys o) with
    | error e => rw [hv] at hok; simp [isError] at hok
    | ok u => simp [db2DropSchemaQuery, hv, isError]
  · intro ds b a o hne
    obtain ⟨k, hk⟩ := List.exists_mem_of_ne_nil _ hne
    have herr := (rejectInvalidOptions_error_iff "renameTableQuery" "db2" []
      (renameTableOptionKeys o)).mpr ⟨k, hk, by simp⟩
    cases hv : rejectInvalidOptions "renameTableQuery" "db2" [] (renameTableOptionKeys o) with
    | error e => simp [db2RenameTableQuery, hv, isError]
    | ok u => rw [hv] at herr; simp [isError] at herr

/-- Witness for C1 at concrete inputs. -/
theorem c1_witness :
    (isError (rejectInvalidOptions "op" "d" ["a"] ["b"]) = true ↔ ∃ k ∈ ["b"], k ∉ ["a"])
    ∧ isError (pgCreateDatabaseQuery "db" (some { collate := some "C" })) = false
    ∧ isError (pgCreateDatabaseQuery "db" (some { extraKeys := ["bogus"] })) = true
    ∧ isError (db2DropSchemaQuery "s" (some { cascade := some true })) = true
    ∧ isError (db2DropSchemaQuery "s" (some ({ } : DropSchemaOptions))) = false
    ∧ isError (db2RenameTableQuery "D" ⟨"t", none⟩ ⟨"t", none⟩
        (some { changeSchema := some true })) = true :=
  ⟨c1_option_validation_strict.1 "op" "d" ["a"] ["b"],
   c1_option_validation_strict.2.1 "db" { collate := some "C" } (by decide),
   c1_option_validation_strict.2.2.1 "db" { extraKeys := ["bogus"] }
     ⟨"bogus", by decide, by decide⟩,
   c1_option_validation_strict.2.2.2.1 "s" { cascade := some true } (by decide),
   c1_option_validation_strict.2.2.2.2.1 "s" { } (by decide),
   c1_option_validation_strict.2.2.2.2.2 "D" ⟨"t", none⟩ ⟨"t", none⟩
     { changeSchema := some true } (by decide)⟩

theorem insertValidate_error_of_both (o : InsertOptions)
    (h1 : o.ignoreDuplicates = some true) (h2 : o.updateOnDuplicate.isSome = true) :
    isError (insertValidate (some o)) = true := by
  cases hr : rejectInvalidOptions "insertQuery" "postgres"
      INSERT_QUERY_SUPPORTED_OPTIONS (insertOptionKeys o) with
  | error e => simp [insertValidate, hr, isError]
  | ok u => simp [insertValidate, hr, isError, h1, h2]

/-- Claim C2: for every table name, value payload and options object, calling
insertQuery with both ignoreDuplicates and updateOnDuplicate set fails before
producing any SQL, regardless of the values of all other option keys. -/
theorem c2_insert_duplicate_modes_fail (tableName : TableDescriptor)
    (value : List (String × SqlValue)) (o : InsertOptions)
    (attributeHash : List (String × AttributeOptions))
    (conflictFragmentSql randomHex : String)
    (h1 : o.ignoreDuplicates = some true) (h2 : o.updateOnDuplicate.isSome = true) :
    isError (pgInsertQuery tableName value (some o) attributeHash
      conflictFragmentSql randomHex) = true := by
  have hv := insertValidate_error_of_both o h1 h2
  cases he : insertValidate (some o) with
  | error e => simp [pgInsertQuery, he, isError]
  | ok u => rw [he] at hv; simp [isError] at hv

/-- Witness for C2 at a concrete input. -/
theorem c2_witness :
    isError (pgInsertQuery ⟨"t", none⟩ [("a", SqlValue.int 1)]
      (some { ignoreDuplicates := some true, updateOnDuplicate := some ["a"] })
      [] "" "") = true :=
  c2_insert_duplicate_modes_fail ⟨"t", none⟩ [("a", SqlValue.int 1)]
    { ignoreDuplicates := some true, updateOnDuplicate := some ["a"] }
    [] "" "" rfl rfl

/-- Claim C3: on DB2, an addIndexQuery whose options contain an include key
while unique is falsy and the index type is not the word unique in any letter
case fails with the message naming the rule, and never reaches the SQL
assembly of the superclass. -/
theorem c3_db2_include_nonunique_fails (o : Db2AddIndexOptions)
    (h1 : o.includeColumns.isSome = true) (h2 : o.unique = false)
    (h3 : (o.indexType.map strToLower == some "unique") = false) :
    db2AddIndexQuery o = .thrown "DB2 does not support non-unique indexes with INCLUDE syntax."
    ∧ db2AddIndexQuery o ≠ .delegated := by
  have ht : db2AddIndexQuery o
      = .thrown "DB2 does not support non-unique indexes with INCLUDE syntax." := by
    simp [db2AddIndexQuery, h1, h2, h3]
  exact ⟨ht, by rw [ht]; intro hc; cases hc⟩

/-- Witness for C3 at the concrete input of scenario B of the spec. -/
theorem c3_witness :
    db2AddIndexQuery { includeColumns := some ["first_name", "last_name"], unique := false }
      = .thrown "DB2 does not support non-unique indexes with INCLUDE syntax."
    ∧ db2AddIndexQuery { includeColumns := some ["first_name", "last_name"], unique := false }
      ≠ .delegated :=
  c3_db2_include_nonunique_fails
    { includeColumns := some ["first_name", "last_name"], unique := false } rfl rfl rfl

/-- Claim C4: the auto-generated index name is a pure function of the table
and the field list, and removeIndexQuery invoked with the field list resolves
exactly the name an add-index call derives, so the produced DROP INDEX query
is identical to a removal by that derived name. -/
theorem c4_index_name_add_remove_agree (table : TableDescriptor)
    (fields : List String) (opts : Option RemoveIndexOptions) :
    removeIndexResolvedName table (Sum.inr fields) = addIndexDerivedName table none fields
    ∧ pgRemoveIndexQuery table (Sum.inr fields) opts
        = pgRemoveIndexQuery table (Sum.inl (addIndexDerivedName table none fields)) opts :=
  ⟨rfl, rfl⟩

theorem buildValueMap_eq_filterMap (am : List (String × AttributeOptions))
    (payload : List (String × SqlValue)) :
    buildValueMap am payload = payload.filterMap (entryRendering am) := by
  induction payload with
  | nil => rfl
  | cons hd tl ih =>
    obtain ⟨c, v⟩ := hd
    by_cases h1 : (isAutoIncrement am c && (v == SqlValue.nullV || v == SqlValue.undef)) = true
    · simp [buildValueMap, List.filterMap_cons, entryRendering, h1, ih]
    · rw [Bool.not_eq_true] at h1
      by_cases h2 : (v == SqlValue.undef) = true
      · simp [buildValueMap, List.filterMap_cons, entryRendering, h1, h2, ih]
        by_cases h3 : isAutoIncrement am c = true <;> simp [h3]
      · rw [Bool.not_eq_true] at h2
        simp [buildValueMap, List.filterMap_cons, entryRendering, h1, h2, ih]
        by_cases h3 : isAutoIncrement am c = true ∧ v = SqlValue.nullV <;> simp [h3]

/-- Counterexample to claim C5 as stated: the insert payload assigning the
JavaScript undefined to the auto-increment column id is NOT omitted from the
column and value lists; the loose nullish test of the source turns it into the
DEFAULT keyword, so the column list contains id. -/
theorem c5_counterexample_undefined_autoincrement :
    buildValueMap [("id", { autoIncrement := true })] [("id", SqlValue.undef)]
      = [("id", "DEFAULT")]
    ∧ pgInsertQuery ⟨"t", none⟩ [("id", SqlValue.undef)] none
        [("id", { autoIncrement := true })] "" ""
      = .ok "INSERT INTO \"t\" (\"id\") VALUES (DEFAULT)" :=
  ⟨rfl, rfl⟩

/-- Claim C5, amended: the value loop of insertQuery renders each payload
entry independently; an undefined value is omitted from both the column list
and the value list unless its column is flagged auto-increment, in which case
it (like an explicit null) renders as the DEFAULT keyword; an explicit null
renders as DEFAULT exactly when the column is auto-increment and as the NULL
literal otherwise. -/
theorem c5_amended_value_rendering (am : List (String × AttributeOptions))
    (payload : List (String × SqlValue)) :
    buildValueMap am payload = payload.filterMap (entryRendering am)
    ∧ (∀ c, isAutoIncrement am c = false → entryRendering am (c, SqlValue.undef) = none)
    ∧ (∀ c, isAutoIncrement am c = true →
        entryRendering am (c, SqlValue.nullV) = some (c, "DEFAULT")
        ∧ entryRendering am (c, SqlValue.undef) = some (c, "DEFAULT"))
    ∧ (∀ c, isAutoIncrement am c = false →
        entryRendering am (c, SqlValue.nullV) = some (c, "NULL"))
    ∧ (∀ c v, v ≠ SqlValue.nullV → v ≠ SqlValue.undef →
        entryRendering am (c, v) = some (c, escapeValue v)) := by
  refine ⟨buildValueMap_eq_filterMap am payload, ?_, ?_, ?_, ?_⟩
  · intro c h
    simp [entryRendering, h]
  · intro c h
    exact ⟨by simp [entryRendering, h], by simp [entryRendering, h]⟩
  · intro c h
    simp [entryRendering, h, escapeValue]
  · intro c v hn hu
    simp [entryRendering, hn, hu]

/-- Witness for C5 at concrete inputs. -/
theorem c5_witness :
    buildValueMap [("id", { autoIncrement := true })] [("id", SqlValue.undef), ("n", SqlValue.int 3)]
      = [("id", SqlValue.undef), ("n", SqlValue.int 3)].filterMap
          (entryRendering [("id", { autoIncrement := true })])
    ∧ entryRendering [("id", { autoIncrement := true })] ("other", SqlValue.undef) = none
    ∧ entryRendering [("id", { autoIncrement := true })] ("id", SqlValue.nullV)
        = some ("id", "DEFAULT")
    ∧ entryRendering [("id", { autoIncrement := true })] ("other", SqlValue.nullV)
        = some ("other", "NULL")
    ∧ entryRendering [("id", { autoIncrement := true })] ("n", SqlValue.int 3)
        = some ("n", escapeValue (SqlValue.int 3)) :=
  ⟨(c5_amended_value_rendering [("id", { autoIncrement := true })]
      [("id", SqlValue.undef), ("n", SqlValue.int 3)]).1,
   (c5_amended_value_rendering [("id", { autoIncrement := true })] []).2.1 "other" (by decide),
   ((c5_amended_value_rendering [("id", { autoIncrement := true })] []).2.2.1 "id" (by decide)).1,
   (c5_amended_value_rendering [("id", { autoIncrement := true })] []).2.2.2.1 "other" (by decide),
   (c5_amended_value_rendering [("id", { autoIncrement := true })] []).2.2.2.2 "n"
     (SqlValue.int 3) (by decide) (by decide)⟩

theorem insertSorted_length (x : String) (l : List String) :
    (insertSorted x l).length = l.length + 1 := by
  induction l with
  | nil => rfl
  | cons y ys ih =>
    simp only [insertSorted]
    split
    · simp
    · simp [ih]

theorem sortStrings_length (l : List String) : (sortStrings l).length = l.length := by
  induction l with
  | nil => rfl
  | cons x xs ih =>
    show (insertSorted x (sortStrings xs)).length = xs.length + 1
    rw [insertSorted_length, ih]

theorem everyIndexEq_true_iff (xs ys : List String) :
    everyIndexEq xs ys = true ↔ ∀ i < xs.length, xs[i]? = ys[i]? := by
  unfold everyIndexEq
  rw [List.all_eq_true]
  constructor
  · intro h i hi
    exact beq_iff_eq.mp (h i (List.mem_range.mpr hi))
  · intro h i hi
    exact beq_iff_eq.mpr (h i (List.mem_range.mp hi))

theorem uniqueIsPrimary_true_iff (sf spk : List String) (n : Nat) (hn : spk.length = n) :
    uniqueIsPrimary sf spk n = true ↔ sf = spk := by
  unfold uniqueIsPrimary
  rw [Bool.and_eq_true, beq_iff_eq, everyIndexEq_true_iff]
  constructor
  · rintro ⟨hlen, hpt⟩
    apply List.ext_getElem?
    intro i
    by_cases hi : i < sf.length
    · exact hpt i hi
    · rw [List.getElem?_eq_none (Nat.le_of_not_lt hi),
        List.getElem?_eq_none (by omega)]
  · rintro rfl
    exact ⟨by omega, fun i hi => rfl⟩

theorem chain_ne_empty (a b : String) (ha : a.data ≠ []) : a ++ b ≠ "" :=
  strAppend_left_ne_empty a b ha

theorem ibmiUniqueKeyFragment_eq_empty_iff (tableName : String)
    (primaryKeys : List String) (uk : UniqueKeySpec) :
    ibmiUniqueKeyFragment tableName primaryKeys uk = ""
      ↔ sortStrings uk.fields = sortStrings primaryKeys := by
  have hiff := uniqueIsPrimary_true_iff (sortStrings uk.fields) (sortStrings primaryKeys)
    primaryKeys.length (sortStrings_length primaryKeys)
  unfold ibmiUniqueKeyFragment
  split
  case isTrue h => exact ⟨fun _ => hiff.mp h, fun _ => rfl⟩
  case isFalse h =>
    constructor
    · intro habs
      exfalso
      apply strAppend_left_ne_empty ", CONSTRAINT "
        (quoteIdentifier (uk.indexName.getD (ibmiAutoUniqueName tableName uk.fields))
          ++ (" UNIQUE (" ++ (String.intercalate ", " (uk.fields.map quoteIdentifier) ++ ")")))
        (by decide)
      rw [← strAppend_assoc, ← strAppend_assoc, ← strAppend_assoc]
      exact habs
    · intro hsp
      exact absurd (hiff.mpr hsp) h

/-- Counterexample to claim C6 as stated: the primary key column set is the
single column ID, the unique key column set is the single column id — equal up
to letter case, so the claim demands the clause be skipped — yet the strict
string comparison of the source emits the constraint. -/
theorem c6_counterexample_case_sensitive :
    (["id"].map strToLower = ["ID"].map strToLower)
    ∧ ibmiUniqueKeyFragment "t" ["ID"] { indexName := some "u", fields := ["id"] }
        = ", CONSTRAINT \"u\" UNIQUE (\"id\")"
    ∧ ibmiCreateTableQuery "t" [("ID", "INTEGER PRIMARY KEY")]
        (some { uniqueKeys := some [{ indexName := some "u", fields := ["id"] }] })
      = .ok "BEGIN\n    DECLARE CONTINUE HANDLER FOR SQLSTATE VALUE \x2742710\x27\n      BEGIN END;\n      CREATE TABLE \"t\" (\"ID\" INTEGER , CONSTRAINT \"u\" UNIQUE (\"id\"), PRIMARY KEY (\"ID\"));\n      END" :=
  ⟨by decide, rfl, rfl⟩

/-- Claim C6, amended: a unique-key clause is skipped exactly when its column
set equals the primary key column set under case-SENSITIVE, order-insensitive
(sorted) comparison; every other unique key is emitted as a named UNIQUE
constraint, with the caller supplied name or the auto-generated one. -/
theorem c6_amended_unique_key_skip (tableName : String)
    (primaryKeys : List String) (uk : UniqueKeySpec) :
    (ibmiUniqueKeyFragment tableName primaryKeys uk = ""
      ↔ sortStrings uk.fields = sortStrings primaryKeys)
    ∧ (sortStrings uk.fields ≠ sortStrings primaryKeys →
        ibmiUniqueKeyFragment tableName primaryKeys uk
          = ", CONSTRAINT "
            ++ quoteIdentifier (uk.indexName.getD (ibmiAutoUniqueName tableName uk.fields))
            ++ " UNIQUE (" ++ String.intercalate ", " (uk.fields.map quoteIdentifier) ++ ")") := by
  refine ⟨ibmiUniqueKeyFragment_eq_empty_iff tableName primaryKeys uk, ?_⟩
  intro hne
  have hiff := uniqueIsPrimary_true_iff (sortStrings uk.fields) (sortStrings primaryKeys)
    primaryKeys.length (sortStrings_length primaryKeys)
  unfold ibmiUniqueKeyFragment
  rw [if_neg]
  intro habs
  exact absurd (hiff.mp habs) hne

/-- Witness for C6 at concrete inputs: a permuted duplicate of the primary key
is skipped, a distinct unique key is emitted with the auto-generated name. -/
theorem c6_witness :
    (ibmiUniqueKeyFragment "t" ["a", "b"] { indexName := none, fields := ["b", "a"] } = ""
      ↔ sortStrings ["b", "a"] = sortStrings ["a", "b"])
    ∧ ibmiUniqueKeyFragment "t" ["a"] { indexName := none, fields := ["c"] }
        = ", CONSTRAINT " ++ quoteIdentifier (ibmiAutoUniqueName "t" ["c"])
          ++ " UNIQUE (" ++ String.intercalate ", " (["c"].map quoteIdentifier) ++ ")" :=
  ⟨(c6_amended_unique_key_skip "t" ["a", "b"] { indexName := none, fields := ["b", "a"] }).1,
   (c6_amended_unique_key_skip "t" ["a"] { indexName := none, fields := ["c"] }).2 (by decide)⟩

theorem db2RenameTableAfterValidation_error (ds : String) (b a : TableDescriptor)
    (hs : (extractTableDetails ds b).schema ≠ (extractTableDetails ds a).schema) :
    isError (db2RenameTableAfterValidation ds b a) = true := by
  unfold db2RenameTableAfterValidation
  rw [if_pos hs]
  rfl

/-- Claim C7: cross-schema renames.  On Postgres a rename whose source and
target schemas differ fails without a truthy changeSchema flag; with the flag
and an unchanged table name it produces the ALTER TABLE ... SET SCHEMA
statement; with the flag and a changed table name it fails.  On DB2 a
cross-schema rename fails regardless of the options passed. -/
theorem c7_rename_table_cross_schema :
    (∀ b a options,
      (extractTableDetails "public" b).schema ≠ (extractTableDetails "public" a).schema →
      changeSchemaTruthy options = false →
      isError (pgRenameTableQuery b a options) = true)
    ∧ (∀ b a options,
      (extractTableDetails "public" b).schema ≠ (extractTableDetails "public" a).schema →
      changeSchemaTruthy options = true →
      b.tableName = a.tableName →
      pgRenameTableQuery b a options
        = .ok ("ALTER TABLE " ++ quoteTable b ++ " SET SCHEMA "
          ++ quoteIdentifier ((extractTableDetails "public" a).schema.getD "")))
    ∧ (∀ b a options,
      (extractTableDetails "public" b).schema ≠ (extractTableDetails "public" a).schema →
      changeSchemaTruthy options = true →
      b.tableName ≠ a.tableName →
      isError (pgRenameTableQuery b a options) = true)
    ∧ (∀ ds b a options,
      (extractTableDetails ds b).schema ≠ (extractTableDetails ds a).schema →
      isError (db2RenameTableQuery ds b a options) = true) := by
  refine ⟨?_, ?_, ?_, ?_⟩
  · intro b a options hs hcs
    unfold pgRenameTableQuery
    rw [if_pos hs, if_pos hcs]
    rfl
  · intro b a options hs hcs ht
    have ht2 : (extractTableDetails "public" b).tableName
        = (extractTableDetails "public" a).tableName := ht
    unfold pgRenameTableQuery
    rw [if_pos hs, if_neg (by simp [hcs]), if_neg (not_ne_iff.mpr ht2)]
  · intro b a options hs hcs htn
    have htn2 : (extractTableDetails "public" b).tableName
        ≠ (extractTableDetails "public" a).tableName := htn
    unfold pgRenameTableQuery
    rw [if_pos hs, if_neg (by simp [hcs]), if_pos htn2]
    rfl
  · intro ds b a options hs
    cases options with
    | none =>
      show isError (db2RenameTableAfterValidation ds b a) = true
      exact db2RenameTableAfterValidation_error ds b a hs
    | some o =>
      cases hr : rejectInvalidOptions "renameTableQuery" "db2" [] (renameTableOptionKeys o) with
      | error e => simp [db2RenameTableQuery, hr, isError]
      | ok u =>
        have := db2RenameTableAfterValidation_error ds b a hs
        simpa [db2RenameTableQuery, hr] using this

/-- Witness for C7 at concrete inputs. -/
theorem c7_witness :
    isError (pgRenameTableQuery ⟨"t", some "a"⟩ ⟨"t", some "b"⟩ none) = true
    ∧ pgRenameTableQuery ⟨"t", some "a"⟩ ⟨"t", some "b"⟩ (some { changeSchema := some true })
        = .ok ("ALTER TABLE " ++ quoteTable ⟨"t", some "a"⟩ ++ " SET SCHEMA "
          ++ quoteIdentifier ((extractTableDetails "public" ⟨"t", some "b"⟩).schema.getD ""))
    ∧ isError (pgRenameTableQuery ⟨"t", some "a"⟩ ⟨"u", some "b"⟩
        (some { changeSchema := some true })) = true
    ∧ isError (db2RenameTableQuery "D" ⟨"t", some "a"⟩ ⟨"t", some "b"⟩ none) = true :=
  ⟨c7_rename_table_cross_schema.1 ⟨"t", some "a"⟩ ⟨"t", some "b"⟩ none (by decide) rfl,
   c7_rename_table_cross_schema.2.1 ⟨"t", some "a"⟩ ⟨"t", some "b"⟩
     (some { changeSchema := some true }) (by decide) rfl rfl,
   c7_rename_table_cross_schema.2.2.1 ⟨"t", some "a"⟩ ⟨"u", some "b"⟩
     (some { changeSchema := some true }) (by decide) rfl (by decide),
   c7_rename_table_cross_schema.2.2.2 "D" ⟨"t", some "a"⟩ ⟨"t", some "b"⟩ none (by decide)⟩

/-- Counterexample to claim C8 as stated: two invocations on identical inputs
are NOT guaranteed identical output for the operations that draw random bytes.
Two draws of the transaction id (bytes 0,1 versus 2,3) and two exception-mode
insert calls whose random delimiters differ produce different SQL text. -/
theorem c8_counterexample_random_delimiter :
    db2GenerateTransactionId [0, 1] ≠ db2GenerateTransactionId [2, 3]
    ∧ pgInsertQuery ⟨"t", none⟩ [("a", SqlValue.int 1)] (some { exception := some true }) [] ""
        "aabbccddeeff0011"
      ≠ pgInsertQuery ⟨"t", none⟩ [("a", SqlValue.int 1)] (some { exception := some true }) [] ""
        "1100ffeeddccbbaa" :=
  ⟨by decide, fun h => absurd (Except.ok.inj h) (by decide)⟩

/-- Claim C8, amended: SQL generation is a pure function of the inputs and the
random bytes drawn; every insertQuery call outside the exception-catching mode
is independent of the random draw, so only the exception mode (and the DB2
transaction id) vary between invocations. -/
theorem c8_amended_determinism_without_exception (tableName : TableDescriptor)
    (value : List (String × SqlValue)) (options : Option InsertOptions)
    (attributeHash : List (String × AttributeOptions)) (conflictFragmentSql : String)
    (r1 r2 : String) (h : exceptionTruthy options = false) :
    pgInsertQuery tableName value options attributeHash conflictFragmentSql r1
      = pgInsertQuery tableName value options attributeHash conflictFragmentSql r2 := by
  unfold pgInsertQuery
  cases hv : insertValidate options with
  | error e => rfl
  | ok u => simp [pgInsertQueryBody, h]

/-- Witness for C8 at concrete inputs: without the exception flag two distinct
random draws give the identical query. -/
theorem c8_witness :
    pgInsertQuery ⟨"t", none⟩ [("a", SqlValue.int 1)] none [] "" "aabbccddeeff0011"
      = pgInsertQuery ⟨"t", none⟩ [("a", SqlValue.int 1)] none [] "" "1100ffeeddccbbaa" :=
  c8_amended_determinism_without_exception ⟨"t", none⟩ [("a", SqlValue.int 1)] none [] ""
    "aabbccddeeff0011" "1100ffeeddccbbaa" rfl

/-- Counterexample to claim C9 as stated: a listTablesQuery call with a
specific schema filter contains no exclusion predicate at all — the technical
schema name does not occur anywhere in the generated query. -/
theorem c9_counterexample_schema_filter :
    pgListTablesQuery ["tech_schema"] (some { schema := some "myschema" })
      = "SELECT table_name AS \"tableName\", table_schema AS \"schema\" FROM information_schema.tables WHERE table_type = \x27BASE TABLE\x27 AND table_name != \x27spatial_ref_sys\x27 AND table_schema = \x27myschema\x27 ORDER BY table_schema, table_name"
    ∧ strContains (pgListTablesQuery ["tech_schema"] (some { schema := some "myschema" }))
        "tech_schema" = false :=
  ⟨rfl, by decide⟩

/-- Claim C9, amended: the listing operations build their exclusion predicate
from the technical name set merged with the caller supplied skip list, and
listTablesQuery keeps the technical exclusion exactly when no truthy schema
filter is supplied — with a schema filter it emits only the equality filter
and no exclusion predicate. -/
theorem c9_amended_exclusion_merge :
    (∀ tech skip, pgDatabasesToSkip tech (some { skip := some skip }) = tech ++ skip)
    ∧ (∀ tech skip, pgSchemasToSkip tech (some { skip := some skip })
        = ("public" :: tech) ++ skip)
    ∧ (∀ tech skip, db2SchemasToSkip tech (some { skip := some skip }) = tech ++ skip)
    ∧ (∀ tech options, pgListDatabasesQuery tech options = joinSQLFragments [
        "SELECT datname AS \"name\" FROM pg_database",
        "WHERE datistemplate = false AND datname NOT IN ("
          ++ String.intercalate ", " ((pgDatabasesToSkip tech options).map escapeString) ++ ")"])
    ∧ (∀ tech, pgListTablesQuery tech none = joinSQLFragments [
        "SELECT table_name AS \"tableName\", table_schema AS \"schema\"",
        "FROM information_schema.tables WHERE table_type = \x27BASE TABLE\x27 AND table_name != \x27spatial_ref_sys\x27",
        pgListTablesExclusionClause tech,
        "ORDER BY table_schema, table_name"])
    ∧ (∀ tech s, s ≠ "" → pgListTablesQuery tech (some { schema := some s })
        = joinSQLFragments [
        "SELECT table_name AS \"tableName\", table_schema AS \"schema\"",
        "FROM information_schema.tables WHERE table_type = \x27BASE TABLE\x27 AND table_name != \x27spatial_ref_sys\x27",
        "AND table_schema = " ++ escapeString s,
        "ORDER BY table_schema, table_name"]) := by
  refine ⟨fun tech skip => rfl, fun tech skip => rfl, fun tech skip => rfl,
    fun tech options => rfl, fun tech => rfl, ?_⟩
  intro tech s h
  simp [pgListTablesQuery, pgListTablesSchemaClause, h]

/-- Witness for C9 at concrete inputs. -/
theorem c9_witness :
    pgDatabasesToSkip ["postgres"] (some { skip := some ["mydb"] }) = ["postgres"] ++ ["mydb"]
    ∧ pgListTablesQuery ["ts"] (some { schema := some "s" }) = joinSQLFragments [
        "SELECT table_name AS \"tableName\", table_schema AS \"schema\"",
        "FROM information_schema.tables WHERE table_type = \x27BASE TABLE\x27 AND table_name != \x27spatial_ref_sys\x27",
        "AND table_schema = " ++ escapeString "s",
        "ORDER BY table_schema, table_name"] :=
  ⟨c9_amended_exclusion_merge.1 ["postgres"] ["mydb"],
   c9_amended_exclusion_merge.2.2.2.2.2 ["ts"] "s" (by decide)⟩

/-- Claim C10: when the value map is empty after the value loop, insertQuery
produces INSERT INTO the quoted table DEFAULT VALUES, with the RETURNING
fragment still appended; a truthy returning option makes that fragment a
RETURNING clause. -/
theorem c10_insert_default_values (tableName : TableDescriptor)
    (value : List (String × SqlValue)) (options : Option InsertOptions)
    (attributeHash : List (String × AttributeOptions))
    (conflictFragmentSql randomHex : String)
    (hv : insertValidate options = Except.ok ())
    (hempty : buildValueMap (buildAttributeMap attributeHash) value = []) :
    pgInsertQuery tableName value options attributeHash conflictFragmentSql randomHex
      = .ok (joinSQLFragments ["INSERT INTO", quoteTable tableName, "DEFAULT VALUES",
          returningFragment options])
    ∧ (returningTruthy options = true →
        ∃ rest, returningFragment options = "RETURNING" ++ rest) := by
  constructor
  · unfold pgInsertQuery
    rw [hv]
    simp [pgInsertQueryBody, hempty]
  · intro hr
    unfold returningFragment
    rw [if_pos hr]
    by_cases hs : String.intercalate ", " (getReturnFields options) = ""
    · refine ⟨"", ?_⟩
      rw [strAppend_empty]
      simp [joinSQLFragments, List.filter, hs, joinWithSpace]
    · have hb : (String.intercalate ", " (getReturnFields options) != "") = true := by
        simpa [bne_iff_ne] using hs
      refine ⟨" " ++ String.intercalate ", " (getReturnFields options), ?_⟩
      rw [← strAppend_assoc]
      simp [joinSQLFragments, List.filter, hb, joinWithSpace]

/-- Witness for C10 at a concrete input: a payload whose single entry is
undefined on a non auto-increment column empties the value map. -/
theorem c10_witness :
    pgInsertQuery ⟨"t", none⟩ [("a", SqlValue.undef)]
        (some { returning := some (ReturningOption.rbool true) }) [] "" ""
      = .ok (joinSQLFragments ["INSERT INTO", quoteTable ⟨"t", none⟩, "DEFAULT VALUES",
          returningFragment (some { returning := some (ReturningOption.rbool true) })])
    ∧ (∃ rest, returningFragment (some { returning := some (ReturningOption.rbool true) })
        = "RETURNING" ++ rest) :=
  have h := c10_insert_default_values ⟨"t", none⟩ [("a", SqlValue.undef)]
    (some { returning := some (ReturningOption.rbool true) }) [] "" "" rfl rfl
  ⟨h.1, h.2 rfl⟩

end SequelizeSpec
